import Mathlib

/-!
Verification development for the oraculo-conexao-esboco backend (src/main.py).

The Python program is embedded shallowly:
* machine integers appear as `Nat`/`Int` with explicit reduction modulo powers
  of two where the original code wraps;
* IEEE floating point values are represented by their exact rational values
  (every float is a rational); the floating-point square root used inside
  sklearn's cosine similarity is kept as an explicit function argument
  `fsqrt`, since no claim depends on its numerics;
* Python's process-seeded string hash is kept as an explicit function argument
  `pyHash` (within one process run it is a pure function of the string);
* the SQLite table `documentos` is a list of rows in insertion order together
  with the next AUTOINCREMENT identifier;
* the BLOB column is modelled at the value level; the byte-level
  serialization round trip of `tobytes`/`frombuffer` is modelled separately
  on 32-bit float bit patterns (`tobytes32`, `frombuffer32`).
-/

/-- Reduction of a natural number to its low 32 bits. -/
def u32 (n : Nat) : Nat := n % 4294967296

/-- Knuth-style recurrence filling the Mersenne Twister state words after the
seed word: each word is 1812433253 * (prev XOR (prev >>> 30)) + index, kept to
32 bits.  This models numpy's legacy RandomState scalar seeding. -/
def mtInitFrom : Nat → Nat → Nat → List Nat
  | 0, _, _ => []
  | k + 1, anterior, i =>
    let v := u32 (1812433253 * (anterior ^^^ (anterior >>> 30)) + i)
    v :: mtInitFrom k v (i + 1)

/-- Full 624-word Mersenne Twister state obtained from a 32-bit seed. -/
def mtInit (seed : Nat) : List Nat := u32 seed :: mtInitFrom 623 (u32 seed) 1

/-- Twist constant applied when the shifted word is odd. -/
def mtMag (y : Nat) : Nat := if y % 2 = 1 then 2567483615 else 0

/-- One in-place step of the Mersenne Twister state regeneration at index i. -/
def mtTwistStep (mt : List Nat) (i : Nat) : List Nat :=
  let y := (mt.getD i 0 &&& 2147483648) ||| (mt.getD ((i + 1) % 624) 0 &&& 2147483647)
  mt.set i ((mt.getD ((i + 397) % 624) 0) ^^^ (y >>> 1) ^^^ mtMag y)

/-- Regeneration of all 624 state words, performed exactly in index order as
the reference C implementation mutates the array. -/
def mtTwist (mt : List Nat) : List Nat := (List.range 624).foldl mtTwistStep mt

/-- Tempering of one raw state word into an output word. -/
def mtTemper (y0 : Nat) : Nat :=
  let y1 := y0 ^^^ (y0 >>> 11)
  let y2 := y1 ^^^ ((y1 <<< 7) &&& 2636928640)
  let y3 := y2 ^^^ ((y2 <<< 15) &&& 4022730752)
  y3 ^^^ (y3 >>> 18)

/-- Mersenne Twister generator state: the 624 words plus the read position. -/
structure MTState where
  mt : List Nat
  idx : Nat

/-- Freshly seeded generator; the position starts past the end so the first
draw regenerates the state, as numpy's seeding does. -/
def mtFresh (seed : Nat) : MTState := { mt := mtInit seed, idx := 624 }

/-- One 32-bit draw from the generator. -/
def mtNext (s : MTState) : Nat × MTState :=
  if s.idx ≥ 624 then
    let m := mtTwist s.mt
    (mtTemper (m.getD 0 0), { mt := m, idx := 1 })
  else
    (mtTemper (s.mt.getD s.idx 0), { mt := s.mt, idx := s.idx + 1 })

/-- List of n consecutive 32-bit draws. -/
def mtDraws : Nat → MTState → List Nat
  | 0, _ => []
  | n + 1, s =>
    let p := mtNext s
    p.1 :: mtDraws n p.2

/-- Combination of two 32-bit draws a, b into the 53-bit numerator of a
uniform double in the unit interval: (a >>> 5) * 2^26 + (b >>> 6); the double
is that numerator divided by 2^53. -/
def duplo53 (a b : Nat) : Nat := (a >>> 5) * 67108864 + (b >>> 6)

/-- Pairing of a stream of 32-bit words into 53-bit double numerators. -/
def doublesOfWords : List Nat → List Nat
  | a :: b :: resto => duplo53 a b :: doublesOfWords resto
  | _ => []

/-- Rounding of k / 2^s to the nearest integer, ties to even. -/
def rnEven (k s : Nat) : Nat :=
  let q := k >>> s
  let r := k % 2 ^ s
  if 2 ^ s < 2 * r then q + 1
  else if 2 * r < 2 ^ s then q
  else if q % 2 = 1 then q + 1 else q

/-- Exact rational value of the IEEE float32 nearest to k / 2^53 (rounding to
nearest, ties to even).  Every nonzero such value is in the normal float32
range, so only the 24-bit significand truncation matters. -/
def float32OfK53 (k : Nat) : ℚ :=
  if k = 0 then 0
  else
    let len := Nat.log2 k + 1
    if len ≤ 24 then (k : ℚ) / 2 ^ 53
    else ((rnEven k (len - 24) : ℚ) * 2 ^ (len - 24)) / 2 ^ 53

/-- Model of np.random.seed(seed) followed by np.random.rand(512).astype(np.float32):
1024 Mersenne Twister draws combined into 512 doubles, each rounded to its
exact float32 value. -/
def npSeededRand512 (seed : Nat) : List ℚ :=
  (doublesOfWords (mtDraws 1024 (mtFresh seed))).map float32OfK53

/-- Embedding of gerar_embedding_simples (src/main.py lines 37-45): the
generator is seeded with hash(texto) % (2^32 - 1) and 512 uniform float32
draws are produced.  pyHash stands for Python's builtin string hash, a pure
function of the string within one process run; Python's % with a positive
modulus is non-negative, matching Int.emod. -/
def gerar_embedding_simples (pyHash : String → Int) (texto : String) : List ℚ :=
  npSeededRand512 ((pyHash texto % (4294967296 - 1)).toNat)

/-- One row of the documentos table: id INTEGER PRIMARY KEY AUTOINCREMENT,
texto TEXT, embedding BLOB.  The BLOB is modelled by the exact values of the
float32 vector it encodes (the byte round trip is bit-exact, see tobytes32 and
frombuffer32 below). -/
structure Documento where
  id : Nat
  texto : String
  embedding : List ℚ
deriving DecidableEq

/-- State of the SQLite table: rows in insertion order plus the next
AUTOINCREMENT identifier. -/
structure Banco where
  rows : List Documento
  nextId : Nat
deriving DecidableEq

/-- Embedding of inserir_documento (src/main.py lines 50-59): computes the
embedding, serializes it into the BLOB column, appends one row, commits.  The
Python function body has no return statement, so its value is None; that
returned value is modelled by the second component, which is always none. -/
def inserir_documento (pyHash : String → Int) (banco : Banco) (texto : String) :
    Banco × Option Nat :=
  ({ rows := banco.rows ++ [{ id := banco.nextId, texto := texto,
                              embedding := gerar_embedding_simples pyHash texto }],
     nextId := banco.nextId + 1 }, none)

/-- Dot product of two rational vectors, as numpy would compute it. -/
def produtoEscalar (u v : List ℚ) : ℚ := (List.zipWith (fun a b => a * b) u v).sum

/-- Embedding of cosine_similarity([u],[v])[0][0] from sklearn: dot product
over the product of L2 norms; fsqrt stands for the floating-point square
root.  sklearn's normalize treats a zero norm as 1, which yields similarity 0
for a zero vector; the guard below produces the same value in that case. -/
def cosine_similarity_one (fsqrt : ℚ → ℚ) (u v : List ℚ) : ℚ :=
  let nu := fsqrt (produtoEscalar u u)
  let nv := fsqrt (produtoEscalar v v)
  if nu = 0 ∨ nv = 0 then 0 else produtoEscalar u v / (nu * nv)

/-- Scored rows in the order the SELECT returned them (insertion order): this
models the loop of buscar_similares that builds textos_com_id and
similaridades before sorting. -/
def linhasPontuadas (pyHash : String → Int) (fsqrt : ℚ → ℚ) (banco : Banco)
    (texto_consulta : String) : List ((Nat × String) × ℚ) :=
  let embedding_consulta := gerar_embedding_simples pyHash texto_consulta
  banco.rows.map fun d =>
    ((d.id, d.texto), cosine_similarity_one fsqrt embedding_consulta d.embedding)

/-- Descending order on the score component, used as the sort relation. -/
def ordemDesc (a b : (Nat × String) × ℚ) : Prop := b.2 ≤ a.2

instance : DecidableRel ordemDesc := fun a b => inferInstanceAs (Decidable (b.2 ≤ a.2))

instance : IsTotal ((Nat × String) × ℚ) ordemDesc := ⟨fun a b => le_total b.2 a.2⟩

instance : IsTrans ((Nat × String) × ℚ) ordemDesc := ⟨fun _ _ _ h1 h2 => le_trans h2 h1⟩

/-- Model of Python's sorted(..., key=lambda x: x[1], reverse=True): a stable
sort, descending on the second component.  CPython's sort is stable and the
reverse flag keeps equal-key elements in their original order, which is
exactly what insertion sort under ordemDesc produces. -/
def pySortedDesc (l : List ((Nat × String) × ℚ)) : List ((Nat × String) × ℚ) :=
  l.insertionSort ordemDesc

/-- Embedding of buscar_similares (src/main.py lines 64-89): embed the query,
score every stored row in SELECT order, sort descending by score (stable),
truncate to top_k. -/
def buscar_similares (pyHash : String → Int) (fsqrt : ℚ → ℚ) (banco : Banco)
    (texto_consulta : String) (top_k : Nat) : List ((Nat × String) × ℚ) :=
  (pySortedDesc (linhasPontuadas pyHash fsqrt banco texto_consulta)).take top_k

/-- Little-endian byte quadruple of one 32-bit word, as numpy lays out one
float32 element in tobytes(). -/
def bytesOfWord32 (w : Nat) : List Nat :=
  [w % 256, w / 256 % 256, w / 65536 % 256, w / 16777216 % 256]

/-- Embedding of ndarray.tobytes() for a float32 vector given by the 32-bit
bit patterns of its elements: the raw little-endian byte stream. -/
def tobytes32 (ws : List Nat) : List Nat := ws.flatMap bytesOfWord32

/-- Recombination of four little-endian bytes into a 32-bit word. -/
def word32OfBytes (b0 b1 b2 b3 : Nat) : Nat :=
  b0 + 256 * b1 + 65536 * b2 + 16777216 * b3

/-- Embedding of np.frombuffer(buffer, dtype=np.float32): reads consecutive
4-byte little-endian groups; fails (numpy raises) unless the buffer length is
a multiple of 4. -/
def frombuffer32 : List Nat → Option (List Nat)
  | [] => some []
  | b0 :: b1 :: b2 :: b3 :: resto =>
    (frombuffer32 resto).map (fun ws => word32OfBytes b0 b1 b2 b3 :: ws)
  | _ => none

/-- One entry of the keyMetrics array: a label and a value, both strings. -/
structure Metric where
  label : String
  value : String
deriving DecidableEq

/-- The single dataset object inside keywordDistribution. -/
structure Dataset where
  data : List ℚ
  backgroundColor : List String
  borderColor : List String
  borderWidth : Nat
deriving DecidableEq

/-- The keywordDistribution object of a success response. -/
structure KeywordDistribution where
  labels : List String
  datasets : List Dataset
deriving DecidableEq

/-- JSON response of the endpoint: either the 400 error object, whose payload
is the JSON object with the single "error" string field carrying the message,
or the 200 success object with keywordDistribution and keyMetrics. -/
inductive ApiResponse where
  | erro (status : Nat) (mensagem : String)
  | sucesso (status : Nat) (kd : KeywordDistribution) (km : List Metric)
deriving DecidableEq

/-- HTTP status of a response. -/
def ApiResponse.statusOf : ApiResponse → Nat
  | .erro s _ => s
  | .sucesso s _ _ => s

/-- The keywordDistribution object of a success response, if any. -/
def ApiResponse.distribuicao : ApiResponse → Option KeywordDistribution
  | .sucesso _ kd _ => some kd
  | .erro _ _ => none

/-- The keyMetrics array of a success response, if any. -/
def ApiResponse.metricas : ApiResponse → Option (List Metric)
  | .sucesso _ _ km => some km
  | .erro _ _ => none

/-- The i-th keyMetrics entry of a success response, if any. -/
def ApiResponse.metricaEm : ApiResponse → Nat → Option Metric
  | .sucesso _ _ km, i => km[i]?
  | .erro _ _, _ => none

/-- Outcome of one request to the endpoint: the JSON response, the store
state after the handler, and whether conectar_banco was invoked. -/
structure ResultadoRequisicao where
  resposta : ApiResponse
  banco : Banco
  conexaoAberta : Bool
deriving DecidableEq

/-- The fixed background palette attached to the pie dataset. -/
def coresFundo : List String :=
  ["rgba(136, 192, 208, 0.8)", "rgba(163, 190, 140, 0.8)", "rgba(180, 142, 173, 0.8)",
   "rgba(235, 203, 139, 0.8)", "rgba(191, 97, 106, 0.8)"]

/-- The fixed border palette attached to the pie dataset. -/
def coresBorda : List String :=
  ["rgba(136, 192, 208, 1)", "rgba(163, 190, 140, 1)", "rgba(180, 142, 173, 1)",
   "rgba(235, 203, 139, 1)", "rgba(191, 97, 106, 1)"]

/-- Rounding of a rational to the nearest integer, ties to even, as Python's
round does on an exact value. -/
def rodMeioPar (q : ℚ) : ℤ :=
  let f := ⌊q⌋
  let r := q - (f : ℚ)
  if r < 1 / 2 then f else if 1 / 2 < r then f + 1 else if f % 2 = 0 then f else f + 1

/-- Model of Python round(x, 1): the value rounded to one decimal place. -/
def pyRound1 (q : ℚ) : ℚ := (rodMeioPar (q * 10) : ℚ) / 10

/-- Two-digit zero-padded decimal rendering of a natural number below 100. -/
def doisDigitos (n : Nat) : String :=
  if n < 10 then "0" ++ toString n else toString n

/-- Model of the Python format specifier :.2f applied to an exact value:
rounding to two decimal places, ties to even, rendered with two digits. -/
def formatar2 (q : ℚ) : String :=
  let c := rodMeioPar (q * 100)
  let s := if c < 0 then "-" else ""
  let m := c.natAbs
  s ++ toString (m / 100) ++ "." ++ doisDigitos (m % 100)

/-- Characters on which Python str.split() with no argument splits: exactly
those for which str.isspace() holds (Py_UNICODE_ISSPACE): the ASCII
whitespace 0x09-0x0D and 0x20, the separators 0x1C-0x1F, NEL 0x85, NBSP 0xA0,
OGHAM SPACE MARK 0x1680, the space separators 0x2000-0x200A, LINE SEPARATOR
0x2028, PARAGRAPH SEPARATOR 0x2029, NARROW NO-BREAK SPACE 0x202F, MEDIUM
MATHEMATICAL SPACE 0x205F and IDEOGRAPHIC SPACE 0x3000. -/
def pyEspaco (c : Char) : Bool :=
  let n := c.toNat
  (9 ≤ n && n ≤ 13) || (28 ≤ n && n ≤ 31) || n == 32 || n == 133 || n == 160 ||
  n == 5760 || (8192 ≤ n && n ≤ 8202) || n == 8232 || n == 8233 || n == 8239 ||
  n == 8287 || n == 12288

/-- Model of Python str.split() with no argument: split on runs of the
characters of pyEspaco, dropping empty pieces, so the length is the word
count. -/
def pySplitWs (s : String) : List String :=
  (s.split pyEspaco).filter fun w => !(w == "")

/-- Third metric value: "ID {id} ({score:.2f})" for the first similar result,
or "N/A" when the result list is empty. -/
def primeiroDocTexto : List ((Nat × String) × ℚ) → String
  | [] => "N/A"
  | p :: _ => "ID " ++ toString p.1.1 ++ " (" ++ formatar2 p.2 ++ ")"

/-- Embedding of the Flask handler analisar_seo_data (src/main.py lines
96-174).  The request body's content field is an Option String (absent or a
string); data.get('content', '') followed by the falsiness test means both
absence and the empty string take the 400 branch, before conectar_banco is
called.  Otherwise the handler opens the connection (which idempotently
ensures the table), inserts the content, searches the updated store with
top_k = 5, and shapes the chart payload and the four key metrics. -/
def analisar_seo_data (pyHash : String → Int) (fsqrt : ℚ → ℚ) (banco : Banco)
    (contentField : Option String) : ResultadoRequisicao :=
  let content := contentField.getD ""
  if content = "" then
    { resposta := ApiResponse.erro 400 "Conteúdo de texto não fornecido.",
      banco := banco, conexaoAberta := false }
  else
    let conn := banco
    let conn1 := (inserir_documento pyHash conn content).1
    let similares := buscar_similares pyHash fsqrt conn1 content 5
    let labels_pie := similares.map fun p => "Doc ID " ++ toString p.1.1
    let data_pie := similares.map fun p => pyRound1 (p.2 * 100)
    let semResultados := labels_pie.isEmpty
    let labels_fin := if semResultados then ["Nenhuma Palavra-Chave", "Dados Genéricos"]
                      else labels_pie
    let data_fin := if semResultados then [(50 : ℚ), 50] else data_pie
    let kd : KeywordDistribution :=
      { labels := labels_fin,
        datasets := [{ data := data_fin, backgroundColor := coresFundo,
                       borderColor := coresBorda, borderWidth := 1 }] }
    let km : List Metric :=
      [{ label := "Total de Palavras", value := toString (pySplitWs content).length },
       { label := "Documentos Similares Encontrados", value := toString similares.length },
       { label := "Primeiro Doc. Similar", value := primeiroDocTexto similares },
       { label := "Qualidade do Texto", value := "Excelente (Simulado)" }]
    { resposta := ApiResponse.sucesso 200 kd km, banco := conn1, conexaoAberta := true }

/-- Folding a sequence of request contents through the endpoint, threading the
store state; models N consecutive calls. -/
def processarSequencia (pyHash : String → Int) (fsqrt : ℚ → ℚ) (banco : Banco)
    (contents : List String) : Banco :=
  contents.foldl (fun b c => (analisar_seo_data pyHash fsqrt b (some c)).banco) banco

/-! ### Basic length lemmas for the generator -/

theorem mtDraws_length : ∀ (n : Nat) (s : MTState), (mtDraws n s).length = n
  | 0, _ => rfl
  | n + 1, s => by simp [mtDraws, mtDraws_length n]

theorem doublesOfWords_length : ∀ l : List Nat, (doublesOfWords l).length = l.length / 2
  | [] => rfl
  | [a] => by
    show (List.length [] : Nat) = [a].length / 2
    simp
  | _ :: _ :: resto => by
    simp only [doublesOfWords, List.length_cons, doublesOfWords_length resto]
    omega

theorem npSeededRand512_length (seed : Nat) : (npSeededRand512 seed).length = 512 := by
  simp [npSeededRand512, doublesOfWords_length, mtDraws_length]

theorem gerar_embedding_length (pyHash : String → Int) (texto : String) :
    (gerar_embedding_simples pyHash texto).length = 512 := by
  simp [gerar_embedding_simples, npSeededRand512_length]

/-- C1: the embedding function is deterministic: for every text string, two
calls on the same text yield bit-identical 512-element float32 vectors,
because the pseudo-random generator is seeded from the hash of the text
reduced modulo 2^32 - 1 (so the vector depends on the text only through that
reduced hash). -/
theorem c1_embedding_determinista (pyHash : String → Int) (texto outro : String) :
    gerar_embedding_simples pyHash texto = gerar_embedding_simples pyHash texto ∧
    (gerar_embedding_simples pyHash texto).length = 512 ∧
    (pyHash texto % (4294967296 - 1) = pyHash outro % (4294967296 - 1) →
      gerar_embedding_simples pyHash texto = gerar_embedding_simples pyHash outro) :=
  ⟨rfl, gerar_embedding_length pyHash texto, fun h => by
    unfold gerar_embedding_simples
    rw [h]⟩

/-- Witness for C1 at a concrete hash function and concrete texts. -/
theorem c1_testemunha :
    gerar_embedding_simples (fun _ => 0) "a" = gerar_embedding_simples (fun _ => 0) "b" :=
  (c1_embedding_determinista (fun _ => 0) "a" "b").2.2 rfl

/-! ### Byte-level round trip of the float32 serialization -/

theorem word32OfBytes_decompose (w : Nat) (h : w < 4294967296) :
    word32OfBytes (w % 256) (w / 256 % 256) (w / 65536 % 256) (w / 16777216 % 256) = w := by
  unfold word32OfBytes
  omega

theorem frombuffer32_tobytes32 (ws : List Nat) (h : ∀ w ∈ ws, w < 4294967296) :
    frombuffer32 (tobytes32 ws) = some ws := by
  induction ws with
  | nil => rfl
  | cons w ws ih =>
    have hw : w < 4294967296 := h w (List.mem_cons_self w ws)
    have hws : ∀ x ∈ ws, x < 4294967296 := fun x hx => h x (List.mem_cons_of_mem w hx)
    have ht : tobytes32 (w :: ws)
        = w % 256 :: (w / 256 % 256 :: (w / 65536 % 256 :: (w / 16777216 % 256 ::
            tobytes32 ws))) := by
      simp [tobytes32, bytesOfWord32]
    rw [ht]
    show (frombuffer32 (tobytes32 ws)).map _ = _
    rw [ih hws]
    simp [word32OfBytes_decompose w hw]

/-- C4: serializing a 512-element float32 vector to raw bytes (tobytes, as
insert does) and deserializing those bytes (frombuffer, as search does)
reproduces the original vector exactly; the vector is given by the 32-bit bit
patterns of its elements, so the round trip is bit-identical. -/
theorem c4_serializacao_ida_e_volta (ws : List Nat) (_hcomprimento : ws.length = 512)
    (hw : ∀ w ∈ ws, w < 4294967296) :
    frombuffer32 (tobytes32 ws) = some ws :=
  frombuffer32_tobytes32 ws hw

/-- Witness for C4 at a concrete 512-element vector. -/
theorem c4_testemunha :
    frombuffer32 (tobytes32 (List.replicate 512 0)) = some (List.replicate 512 0) :=
  c4_serializacao_ida_e_volta (List.replicate 512 0) (List.length_replicate 512 0)
    (fun w hw => by rw [List.eq_of_mem_replicate hw]; norm_num)

/-! ### Validation path of the endpoint -/

/-- C5: a request whose content field is absent or empty is answered with
status 400 and the JSON error object, before conectar_banco is invoked, and
the store state is unchanged. -/
theorem c5_validacao_sem_conexao (pyHash : String → Int) (fsqrt : ℚ → ℚ)
    (banco : Banco) (contentField : Option String)
    (h : contentField = none ∨ contentField = some "") :
    analisar_seo_data pyHash fsqrt banco contentField =
      { resposta := ApiResponse.erro 400 "Conteúdo de texto não fornecido.",
        banco := banco, conexaoAberta := false } := by
  rcases h with h | h <;> subst h <;> simp [analisar_seo_data]

/-- Witness for C5 at a concrete request with the content field absent. -/
theorem c5_testemunha :
    analisar_seo_data (fun _ => 0) (fun _ => 0) { rows := [], nextId := 1 } none =
      { resposta := ApiResponse.erro 400 "Conteúdo de texto não fornecido.",
        banco := { rows := [], nextId := 1 }, conexaoAberta := false } :=
  c5_validacao_sem_conexao (fun _ => 0) (fun _ => 0) { rows := [], nextId := 1 } none
    (Or.inl rfl)

/-! ### Insert: appends one row, returns None -/

/-- C7 (amended): insert computes the embedding, appends exactly one row with
the next AUTOINCREMENT identifier, and returns None rather than the assigned
identifier (the Python function has no return statement). -/
theorem c7_inserir_acrescenta_uma_linha (pyHash : String → Int) (banco : Banco)
    (texto : String) :
    (inserir_documento pyHash banco texto).1.rows
        = banco.rows ++ [{ id := banco.nextId, texto := texto,
                           embedding := gerar_embedding_simples pyHash texto }] ∧
    (inserir_documento pyHash banco texto).1.nextId = banco.nextId + 1 ∧
    (inserir_documento pyHash banco texto).1.rows.length = banco.rows.length + 1 ∧
    (inserir_documento pyHash banco texto).2 = none := by
  refine ⟨rfl, rfl, ?_, rfl⟩
  show (banco.rows ++ [Documento.mk banco.nextId texto
      (gerar_embedding_simples pyHash texto)]).length = banco.rows.length + 1
  rw [List.length_append]
  rfl

/-- Counterexample for C7 as stated: at a concrete store and text the row
appended gets identifier 1, but the function's returned value is None, not
that identifier. -/
theorem c7_contraexemplo :
    (inserir_documento (fun _ => 0) { rows := [], nextId := 1 } "a").2 = none ∧
    ¬ (inserir_documento (fun _ => 0) { rows := [], nextId := 1 } "a").2 = some 1 := by
  exact ⟨rfl, fun h => Option.noConfusion h⟩

/-! ### Stability and ordering of the descending sort -/

/-- Predicate selecting results with a given score, used to express the
stable tie-break. -/
def mesmoScore (c : ℚ) : ((Nat × String) × ℚ) → Bool := fun p => decide (p.2 = c)

theorem filter_orderedInsert (x : (Nat × String) × ℚ) (l : List ((Nat × String) × ℚ))
    (c : ℚ) :
    (List.orderedInsert ordemDesc x l).filter (mesmoScore c)
      = if x.2 = c then x :: l.filter (mesmoScore c)
        else l.filter (mesmoScore c) := by
  induction l with
  | nil =>
    by_cases hx : x.2 = c <;> simp [mesmoScore, hx]
  | cons b l ih =>
    simp only [List.orderedInsert]
    by_cases hxb : ordemDesc x b
    · rw [if_pos hxb]
      by_cases hx : x.2 = c <;> simp [mesmoScore, List.filter_cons, hx]
    · rw [if_neg hxb]
      have hbx : x.2 < b.2 := lt_of_not_le hxb
      by_cases hx : x.2 = c
      · have hb : ¬ b.2 = c := by
          rw [← hx]
          exact ne_of_gt hbx
        simp only [List.filter_cons, mesmoScore] at *
        simp [hb, hx, ih]
      · simp only [List.filter_cons, mesmoScore] at *
        by_cases hb : b.2 = c <;> simp [hb, hx, ih]

theorem filter_pySortedDesc (l : List ((Nat × String) × ℚ)) (c : ℚ) :
    (pySortedDesc l).filter (mesmoScore c) = l.filter (mesmoScore c) := by
  induction l with
  | nil => rfl
  | cons b l ih =>
    show (List.orderedInsert ordemDesc b (pySortedDesc l)).filter _ = _
    rw [filter_orderedInsert]
    by_cases hb : b.2 = c
    · rw [if_pos hb, ih, List.filter_cons]
      simp [mesmoScore, hb]
    · rw [if_neg hb, ih, List.filter_cons]
      simp [mesmoScore, hb]

/-- C2: search returns its result list sorted in non-increasing score order,
and results with equal scores appear in the order the store returned the rows
(the filtered-by-score subsequence of the output is a prefix of the
corresponding subsequence of the scored rows in SELECT order). -/
theorem c2_busca_ordenada_e_estavel (pyHash : String → Int) (fsqrt : ℚ → ℚ)
    (banco : Banco) (texto : String) (k : Nat) :
    List.Sorted (fun a b : ℚ => b ≤ a)
      ((buscar_similares pyHash fsqrt banco texto k).map (fun p => p.2)) ∧
    ∀ c : ℚ,
      (buscar_similares pyHash fsqrt banco texto k).filter (mesmoScore c) <+:
        (linhasPontuadas pyHash fsqrt banco texto).filter (mesmoScore c) := by
  constructor
  · have hs : List.Sorted ordemDesc (pySortedDesc (linhasPontuadas pyHash fsqrt banco texto)) :=
      List.sorted_insertionSort ordemDesc _
    have ht : List.Pairwise ordemDesc (buscar_similares pyHash fsqrt banco texto k) :=
      hs.sublist (List.take_sublist k _)
    exact (List.pairwise_map).2 ht
  · intro c
    have h1 : (buscar_similares pyHash fsqrt banco texto k).filter (mesmoScore c) <+:
        (pySortedDesc (linhasPontuadas pyHash fsqrt banco texto)).filter (mesmoScore c) :=
      ( List.take_prefix k _).filter _
    rw [filter_pySortedDesc] at h1
    exact h1

/-- Length of the scored-row list equals the row count. -/
theorem linhasPontuadas_length (pyHash : String → Int) (fsqrt : ℚ → ℚ) (banco : Banco)
    (texto : String) :
    (linhasPontuadas pyHash fsqrt banco texto).length = banco.rows.length := by
  simp only [linhasPontuadas]
  rw [List.length_map]

/-- C3: search returns at most k results, and fewer than k only when the
store holds fewer than k rows: the result length is exactly the minimum of k
and the row count. -/
theorem c3_busca_limite_topk (pyHash : String → Int) (fsqrt : ℚ → ℚ) (banco : Banco)
    (texto : String) (k : Nat) :
    (buscar_similares pyHash fsqrt banco texto k).length = min k banco.rows.length := by
  simp only [buscar_similares, pySortedDesc]
  rw [List.length_take, List.length_insertionSort, linhasPontuadas_length]

/-! ### The success path of the endpoint -/

/-- Length of a search result: the minimum of top_k and the row count. -/
theorem buscar_length (pyHash : String → Int) (fsqrt : ℚ → ℚ) (banco : Banco)
    (texto : String) (k : Nat) :
    (buscar_similares pyHash fsqrt banco texto k).length = min k banco.rows.length := by
  simp only [buscar_similares, pySortedDesc]
  rw [List.length_take, List.length_insertionSort, linhasPontuadas_length]

/-- Row count after one insert. -/
theorem inserir_rows_length (pyHash : String → Int) (banco : Banco) (texto : String) :
    (inserir_documento pyHash banco texto).1.rows.length = banco.rows.length + 1 := by
  show (banco.rows ++ [Documento.mk banco.nextId texto
      (gerar_embedding_simples pyHash texto)]).length = banco.rows.length + 1
  rw [List.length_append]
  rfl

/-- On a non-empty content string the handler takes the success branch and
produces exactly this response; in particular the just-inserted row makes the
store non-empty, so the empty-result fallback branch is not taken. -/
theorem analisar_sucesso (pyHash : String → Int) (fsqrt : ℚ → ℚ) (banco : Banco)
    (content : String) (h : content ≠ "") :
    analisar_seo_data pyHash fsqrt banco (some content) =
      { resposta := ApiResponse.sucesso 200
          { labels := (buscar_similares pyHash fsqrt (inserir_documento pyHash banco content).1 content 5).map (fun p => "Doc ID " ++ toString p.1.1),
            datasets := [{ data := (buscar_similares pyHash fsqrt (inserir_documento pyHash banco content).1 content 5).map (fun p => pyRound1 (p.2 * 100)),
                           backgroundColor := coresFundo, borderColor := coresBorda,
                           borderWidth := 1 }] }
          [{ label := "Total de Palavras", value := toString (pySplitWs content).length },
           { label := "Documentos Similares Encontrados", value := toString (buscar_similares pyHash fsqrt (inserir_documento pyHash banco content).1 content 5).length },
           { label := "Primeiro Doc. Similar", value := primeiroDocTexto (buscar_similares pyHash fsqrt (inserir_documento pyHash banco content).1 content 5) },
           { label := "Qualidade do Texto", value := "Excelente (Simulado)" }],
        banco := (inserir_documento pyHash banco content).1,
        conexaoAberta := true } := by
  have hlen : (buscar_similares pyHash fsqrt (inserir_documento pyHash banco content).1
      content 5).length = min 5 ((inserir_documento pyHash banco content).1.rows.length) :=
    buscar_length pyHash fsqrt _ content 5
  rw [inserir_rows_length] at hlen
  have hne : ((buscar_similares pyHash fsqrt (inserir_documento pyHash banco content).1
      content 5).map (fun p => "Doc ID " ++ toString p.1.1)).isEmpty = false := by
    rw [List.isEmpty_eq_false_iff_exists_mem]
    have : 0 < (buscar_similares pyHash fsqrt (inserir_documento pyHash banco content).1
        content 5).length := by omega
    obtain ⟨x, hx⟩ := List.exists_mem_of_length_pos this
    exact ⟨_, List.mem_map_of_mem _ hx⟩
  simp only [analisar_seo_data, Option.getD_some, h, hne, if_neg, ite_false,
    Bool.false_eq_true, if_false]

/-- C6: on a non-empty content string the endpoint returns 200 with at most 5
keywordDistribution labels, exactly 4 keyMetrics, a first metric whose value
is the whitespace-split word count rendered as a string, each label of the
form "Doc ID {id}" for the corresponding result, and each pie data value
equal to the corresponding score times 100 rounded to one decimal place. -/
theorem c6_contrato_sucesso (pyHash : String → Int) (fsqrt : ℚ → ℚ) (banco : Banco)
    (content : String) (h : content ≠ "") :
    ∃ kd km,
      analisar_seo_data pyHash fsqrt banco (some content) =
        { resposta := ApiResponse.sucesso 200 kd km,
          banco := (inserir_documento pyHash banco content).1,
          conexaoAberta := true } ∧
      kd.labels = (buscar_similares pyHash fsqrt (inserir_documento pyHash banco content).1 content 5).map (fun p => "Doc ID " ++ toString p.1.1) ∧
      kd.labels.length ≤ 5 ∧
      kd.datasets = [{ data := (buscar_similares pyHash fsqrt (inserir_documento pyHash banco content).1 content 5).map (fun p => pyRound1 (p.2 * 100)),
                       backgroundColor := coresFundo, borderColor := coresBorda,
                       borderWidth := 1 }] ∧
      km.length = 4 ∧
      km[0]? = some { label := "Total de Palavras",
                      value := toString (pySplitWs content).length } := by
  refine ⟨_, _, analisar_sucesso pyHash fsqrt banco content h, rfl, ?_, rfl, rfl, rfl⟩
  rw [List.length_map, buscar_length]
  exact min_le_left _ _

/-- Witness for C6 at a concrete store and the content "hello world". -/
theorem c6_testemunha :
    ∃ kd km,
      analisar_seo_data (fun _ => 0) (fun _ => 0) { rows := [], nextId := 1 } (some "hello world") =
        { resposta := ApiResponse.sucesso 200 kd km,
          banco := (inserir_documento (fun _ => 0) { rows := [], nextId := 1 } "hello world").1,
          conexaoAberta := true } ∧
      kd.labels = (buscar_similares (fun _ => 0) (fun _ => 0) (inserir_documento (fun _ => 0) { rows := [], nextId := 1 } "hello world").1 "hello world" 5).map (fun p => "Doc ID " ++ toString p.1.1) ∧
      kd.labels.length ≤ 5 ∧
      kd.datasets = [{ data := (buscar_similares (fun _ => 0) (fun _ => 0) (inserir_documento (fun _ => 0) { rows := [], nextId := 1 } "hello world").1 "hello world" 5).map (fun p => pyRound1 (p.2 * 100)),
                       backgroundColor := coresFundo, borderColor := coresBorda,
                       borderWidth := 1 }] ∧
      km.length = 4 ∧
      km[0]? = some { label := "Total de Palavras",
                      value := toString (pySplitWs "hello world").length } :=
  c6_contrato_sucesso (fun _ => 0) (fun _ => 0) { rows := [], nextId := 1 } "hello world"
    (by decide)

/-- C8 (amended): in every successful response the fourth keyMetrics entry is
hardcoded regardless of the input, with the Portuguese label "Qualidade do
Texto" and value "Excelente (Simulado)" (not the English strings of the
claim). -/
theorem c8_metrica_qualidade_fixa (pyHash : String → Int) (fsqrt : ℚ → ℚ) (banco : Banco)
    (contentField : Option String) (h : contentField.getD "" ≠ "") :
    (analisar_seo_data pyHash fsqrt banco contentField).resposta.statusOf = 200 ∧
    ApiResponse.metricaEm (analisar_seo_data pyHash fsqrt banco contentField).resposta 3 =
      some { label := "Qualidade do Texto", value := "Excelente (Simulado)" } := by
  cases contentField with
  | none => simp at h
  | some content =>
    rw [analisar_sucesso pyHash fsqrt banco content (by simpa using h)]
    exact ⟨rfl, rfl⟩

/-- Witness for C8 (amended) at a concrete request. -/
theorem c8_testemunha :
    (analisar_seo_data (fun _ => 0) (fun _ => 0) { rows := [], nextId := 1 } (some "abc")).resposta.statusOf = 200 ∧
    ApiResponse.metricaEm (analisar_seo_data (fun _ => 0) (fun _ => 0) { rows := [], nextId := 1 } (some "abc")).resposta 3 =
      some { label := "Qualidade do Texto", value := "Excelente (Simulado)" } :=
  c8_metrica_qualidade_fixa (fun _ => 0) (fun _ => 0) { rows := [], nextId := 1 } (some "abc")
    (by decide)

/-- Counterexample for C8 as stated: at a concrete successful request the
fourth keyMetrics entry is not the English pair ("Text Quality", "Excellent
(Simulated)"); the code hardcodes the Portuguese strings instead. -/
theorem c8_contraexemplo :
    ¬ ApiResponse.metricaEm (analisar_seo_data (fun _ => 0) (fun _ => 0) { rows := [], nextId := 1 } (some "abc")).resposta 3 =
      some { label := "Text Quality", value := "Excellent (Simulated)" } := by
  intro hcl
  rw [analisar_sucesso (fun _ => 0) (fun _ => 0) { rows := [], nextId := 1 } "abc"
    (by decide)] at hcl
  simp only [ApiResponse.metricaEm] at hcl
  have hl := congrArg (fun o => (Option.map Metric.label o).getD "") hcl
  simp at hl

/-- The store state after a successful endpoint call is the store with the
one inserted row. -/
theorem analisar_banco_sucesso (pyHash : String → Int) (fsqrt : ℚ → ℚ) (banco : Banco)
    (content : String) (h : content ≠ "") :
    (analisar_seo_data pyHash fsqrt banco (some content)).banco
      = (inserir_documento pyHash banco content).1 := by
  rw [analisar_sucesso pyHash fsqrt banco content h]

/-- Folding successful calls grows the row count by the number of calls and
keeps all previously existing rows as a prefix. -/
theorem processarSequencia_cresce (pyHash : String → Int) (fsqrt : ℚ → ℚ) :
    ∀ (contents : List String) (banco : Banco), (∀ c ∈ contents, c ≠ "") →
      (processarSequencia pyHash fsqrt banco contents).rows.length
          = banco.rows.length + contents.length ∧
      banco.rows <+: (processarSequencia pyHash fsqrt banco contents).rows := by
  intro contents
  induction contents with
  | nil =>
    intro banco _
    exact ⟨rfl, List.prefix_refl _⟩
  | cons c cs ih =>
    intro banco h
    have hc : c ≠ "" := h c (List.mem_cons_self c cs)
    have hcs : ∀ x ∈ cs, x ≠ "" := fun x hx => h x (List.mem_cons_of_mem c hx)
    have hstep : processarSequencia pyHash fsqrt banco (c :: cs)
        = processarSequencia pyHash fsqrt
            (analisar_seo_data pyHash fsqrt banco (some c)).banco cs := rfl
    rw [hstep, analisar_banco_sucesso pyHash fsqrt banco c hc]
    obtain ⟨h1, h2⟩ := ih (inserir_documento pyHash banco c).1 hcs
    constructor
    · rw [h1, inserir_rows_length]
      simp [List.length_cons]
      omega
    · exact ( List.prefix_append banco.rows _).trans h2

/-- C9: the store is append-only: a successful endpoint call appends exactly
the one new row (so the count grows by one and every prior row is unchanged
at its position), and N successful calls grow the count by exactly N while
keeping the original rows as a prefix. -/
theorem c9_armazenamento_somente_acrescenta (pyHash : String → Int) (fsqrt : ℚ → ℚ)
    (banco : Banco) :
    (∀ content : String, content ≠ "" →
      (analisar_seo_data pyHash fsqrt banco (some content)).banco.rows
          = banco.rows ++ [Documento.mk banco.nextId content
              (gerar_embedding_simples pyHash content)] ∧
      (analisar_seo_data pyHash fsqrt banco (some content)).banco.rows.length
          = banco.rows.length + 1) ∧
    (∀ contents : List String, (∀ c ∈ contents, c ≠ "") →
      (processarSequencia pyHash fsqrt banco contents).rows.length
          = banco.rows.length + contents.length ∧
      banco.rows <+: (processarSequencia pyHash fsqrt banco contents).rows) := by
  constructor
  · intro content h
    rw [analisar_banco_sucesso pyHash fsqrt banco content h]
    exact ⟨rfl, inserir_rows_length pyHash banco content⟩
  · intro contents h
    exact processarSequencia_cresce pyHash fsqrt contents banco h

/-- Witness for C9 at a concrete store and a one-call sequence. -/
theorem c9_testemunha :
    ((analisar_seo_data (fun _ => 0) (fun _ => 0) { rows := [], nextId := 1 } (some "a")).banco.rows
        = ({ rows := [], nextId := 1 } : Banco).rows ++ [Documento.mk 1 "a" (gerar_embedding_simples (fun _ => 0) "a")]) ∧
    (processarSequencia (fun _ => 0) (fun _ => 0) { rows := [], nextId := 1 } ["a"]).rows.length
        = ({ rows := [], nextId := 1 } : Banco).rows.length + 1 ∧
    ({ rows := [], nextId := 1 } : Banco).rows <+:
        (processarSequencia (fun _ => 0) (fun _ => 0) { rows := [], nextId := 1 } ["a"]).rows := by
  have hseq := (c9_armazenamento_somente_acrescenta (fun _ => 0) (fun _ => 0)
      { rows := [], nextId := 1 }).2 ["a"]
    (by intro c hc; rw [List.mem_singleton] at hc; subst hc; decide)
  exact ⟨((c9_armazenamento_somente_acrescenta (fun _ => 0) (fun _ => 0)
      { rows := [], nextId := 1 }).1 "a" (by decide)).1, hseq.1, hseq.2⟩

/-- C10: on a non-empty content the similarity search runs over the store
that already contains the just-inserted row, so the result list is non-empty,
the empty-result fallback distribution is not used (the labels are the
per-result ones), and the second metric reports a count of at least 1. -/
theorem c10_busca_nunca_vazia (pyHash : String → Int) (fsqrt : ℚ → ℚ) (banco : Banco)
    (content : String) (h : content ≠ "") :
    buscar_similares pyHash fsqrt (inserir_documento pyHash banco content).1 content 5 ≠ [] ∧
    1 ≤ (buscar_similares pyHash fsqrt (inserir_documento pyHash banco content).1 content 5).length ∧
    ApiResponse.metricaEm (analisar_seo_data pyHash fsqrt banco (some content)).resposta 1 =
      some { label := "Documentos Similares Encontrados",
             value := toString (buscar_similares pyHash fsqrt (inserir_documento pyHash banco content).1 content 5).length } ∧
    (analisar_seo_data pyHash fsqrt banco (some content)).resposta.distribuicao =
      some { labels := (buscar_similares pyHash fsqrt (inserir_documento pyHash banco content).1 content 5).map (fun p => "Doc ID " ++ toString p.1.1),
             datasets := [{ data := (buscar_similares pyHash fsqrt (inserir_documento pyHash banco content).1 content 5).map (fun p => pyRound1 (p.2 * 100)),
                            backgroundColor := coresFundo, borderColor := coresBorda,
                            borderWidth := 1 }] } := by
  have hlen : (buscar_similares pyHash fsqrt (inserir_documento pyHash banco content).1
      content 5).length = min 5 ((inserir_documento pyHash banco content).1.rows.length) :=
    buscar_length pyHash fsqrt _ content 5
  rw [inserir_rows_length] at hlen
  have h1 : 1 ≤ (buscar_similares pyHash fsqrt (inserir_documento pyHash banco content).1
      content 5).length := by omega
  refine ⟨?_, h1, ?_, ?_⟩
  · intro hnil
    rw [hnil] at h1
    simp at h1
  · rw [analisar_sucesso pyHash fsqrt banco content h]
    rfl
  · rw [analisar_sucesso pyHash fsqrt banco content h]
    rfl

/-- Witness for C10 at a concrete store and content. -/
theorem c10_testemunha :
    buscar_similares (fun _ => 0) (fun _ => 0) (inserir_documento (fun _ => 0) { rows := [], nextId := 1 } "a").1 "a" 5 ≠ [] ∧
    1 ≤ (buscar_similares (fun _ => 0) (fun _ => 0) (inserir_documento (fun _ => 0) { rows := [], nextId := 1 } "a").1 "a" 5).length ∧
    ApiResponse.metricaEm (analisar_seo_data (fun _ => 0) (fun _ => 0) { rows := [], nextId := 1 } (some "a")).resposta 1 =
      some { label := "Documentos Similares Encontrados",
             value := toString (buscar_similares (fun _ => 0) (fun _ => 0) (inserir_documento (fun _ => 0) { rows := [], nextId := 1 } "a").1 "a" 5).length } ∧
    (analisar_seo_data (fun _ => 0) (fun _ => 0) { rows := [], nextId := 1 } (some "a")).resposta.distribuicao =
      some { labels := (buscar_similares (fun _ => 0) (fun _ => 0) (inserir_documento (fun _ => 0) { rows := [], nextId := 1 } "a").1 "a" 5).map (fun p => "Doc ID " ++ toString p.1.1),
             datasets := [{ data := (buscar_similares (fun _ => 0) (fun _ => 0) (inserir_documento (fun _ => 0) { rows := [], nextId := 1 } "a").1 "a" 5).map (fun p => pyRound1 (p.2 * 100)),
                            backgroundColor := coresFundo, borderColor := coresBorda,
                            borderWidth := 1 }] } :=
  c10_busca_nunca_vazia (fun _ => 0) (fun _ => 0) { rows := [], nextId := 1 } "a" (by decide)
